/-
  ServiceAtlas — verification of the natural-language specification
  against a shallow embedding of the source (src/app/...).

  Conventions of the embedding:
  * timestamps (`datetime.utcnow()`) are integers (`Int`), passed in
    explicitly as a `now` parameter wherever the source calls the clock;
  * the SQLAlchemy store becomes an explicit `Store` value (lists of rows)
    threaded through each operation;
  * Pydantic models become structures; a field that Pydantic tracks as
    "unset" (for `model_dump(exclude_unset=True)`) is an `Option`,
    `none` meaning the caller did not supply it;
  * fallible code returns `Except` / `Option`;
  * the opaque JSON `service_meta` map is modelled by the record `Meta`
    holding exactly the keys the source ever reads
    (`service_type`, `login_path`, `auth_endpoint`).
-/
import Mathlib

namespace ServiceAtlas

/-! ## Configuration (src/app/config.py) -/

/-- Settings from `app/config.py` (the fields the embedded code reads). -/
structure Settings where
  healthCheckInterval : Nat := 30
  healthCheckTimeout : Nat := 5
  unhealthyThreshold : Nat := 3
  heartbeatTimeout : Nat := 60
deriving Repr, DecidableEq

/-! ## Data model (src/app/models/) -/

/-- The keys of the opaque `service_meta` JSON map that the source reads
(`service_type`, `login_path`, `auth_endpoint` in `app/api/gateway.py`).
`none` models an absent key (`dict.get` returning `None`). -/
structure Meta where
  serviceType : Option String := none
  loginPath : Option String := none
  authEndpoint : Option String := none
deriving Repr, DecidableEq

/-- Row of the `services` table (`app/models/service.py`). Note: the model
has no `base_path` column. -/
structure Service where
  id : String
  name : String
  host : String
  port : Nat
  protocol : String := "http"
  healthCheckPath : String := "/health"
  status : String := "unknown"
  isGateway : Bool := false
  serviceMeta : Option Meta := none
  registeredAt : Int
  lastHeartbeat : Option Int := none
  consecutiveFailures : Nat := 0
deriving Repr, DecidableEq

/-- `Service.base_url` property: `{protocol}://{host}:{port}`. -/
def Service.baseUrl (s : Service) : String :=
  s.protocol ++ "://" ++ s.host ++ ":" ++ toString s.port

/-- Auth configuration block stored on a route (`app/schemas/route.py`,
class `AuthConfig`). -/
structure AuthConfig where
  requireAuth : Bool := false
  authServiceId : Option String := none
  publicPaths : List String := []
  loginRedirect : Option String := none
deriving Repr, DecidableEq

/-- Row of the `routes` table (`app/models/route.py`). -/
structure Route where
  id : Nat
  gatewayServiceId : String
  pathPattern : String
  methods : String := "*"
  targetServiceId : String
  stripPfx : Bool := false
  stripPath : Option String := none
  priority : Nat := 0
  enabled : Bool := true
  authConfig : Option AuthConfig := none
  createdAt : Int
  updatedAt : Option Int := none
deriving Repr, DecidableEq

/-- Row of the `dependencies` table (`app/models/dependency.py`). -/
structure Dependency where
  id : Nat
  sourceServiceId : String
  targetServiceId : String
  description : Option String := none
  createdAt : Int
deriving Repr, DecidableEq

/-- The relational store: the three tables, plus the autoincrement counter
for route surrogate ids. -/
structure Store where
  services : List Service := []
  routes : List Route := []
  dependencies : List Dependency := []
  nextRouteId : Nat := 1
deriving Repr, DecidableEq

/-- `db.get(Service, id)` — primary-key lookup. -/
def Store.getService (store : Store) (sid : String) : Option Service :=
  store.services.find? (fun s => s.id == sid)

/-! ## Python helpers

Truthiness of an optional string (`if x:` in Python, where `x` is either
`None` or a `str`): `None` and `""` are falsy. -/

/-- Python truthiness for `Optional[str]`. -/
def pyTruthy : Option String → Bool
  | none => false
  | some s => s != ""

/-- Python `a or b` for `a : Optional[str]`, `b : str`:
yields `b` when `a` is `None` or empty. -/
def pyOrStr (a : Option String) (b : String) : String :=
  match a with
  | none => b
  | some s => if s == "" then b else s

/-- `s.startswith("/")`. -/
def startsWithSlash (s : String) : Bool :=
  match s.data with
  | [] => false
  | c :: _ => c == '/'

/-- Normalize a path to start with `/`
(gateway.py: `if not login_path.startswith("/"): login_path = "/" + login_path`). -/
def ensureLeadingSlash (s : String) : String :=
  if startsWithSlash s then s else "/" ++ s

/-- `s.rstrip("/")` — drop all trailing slashes. -/
def rstripSlashes (s : String) : String :=
  ⟨(s.data.reverse.dropWhile (fun c => c == '/')).reverse⟩

/-! ## Path matching (src/app/services/gateway.py, `match_path`)

`match_path` delegates to Python's `fnmatch.fnmatch(path, pattern)`.
`fnmatch.translate` turns `*` into the regex `.*` (any characters,
`/` included) and `?` into `.`; we embed that semantics for patterns
built from literal characters and the `*` / `?` wildcards (the only
forms the repository uses — no `[...]` classes appear in it). -/

/-- Core glob matcher over character lists (fnmatch semantics:
`*` becomes the regex `.*`, so it matches any, possibly empty, run of
characters including `/` — equivalently, `*p` matches `s` iff `p`
matches some suffix of `s`). Structurally recursive on the pattern. -/
def globMatch : List Char → List Char → Bool
  | [], s => s.isEmpty
  | '*' :: ps, s => s.tails.any fun t => globMatch ps t
  | '?' :: ps, s =>
    match s with
    | [] => false
    | _ :: s => globMatch ps s
  | p :: ps, s =>
    match s with
    | [] => false
    | c :: s => p == c && globMatch ps s

/-- `match_path(pattern, path)` from `app/services/gateway.py`. -/
def match_path (pattern path : String) : Bool :=
  globMatch pattern.data path.data

/-! ## Registration input (src/app/schemas/service.py, `ServiceCreate`)

`ServiceCreate` defines exactly these fields: `id?`, `name`, `host`,
`port`, `protocol`, `health_check_path`, `is_gateway`, `service_meta` —
and no `base_path`. A field with a Pydantic default is wrapped in
`Option`: `none` means the caller did not pass it, so
`model_dump(exclude_unset=True)` omits it; the defaulted value is
recovered with `getD` where the source reads the attribute directly. -/

/-- Pydantic `ServiceCreate` request model. -/
structure ServiceCreate where
  id : Option String := none
  name : String
  host : String
  port : Nat
  protocol : Option String := none
  healthCheckPath : Option String := none
  isGateway : Option Bool := none
  serviceMeta : Option (Option Meta) := none
deriving Repr, DecidableEq

/-- Effective value of `service_data.is_gateway` (Pydantic default `False`). -/
def ServiceCreate.isGatewayVal (d : ServiceCreate) : Bool :=
  d.isGateway.getD false

/-! ## ID synthesis (src/app/services/registry.py, `generate_service_id`) -/

/-- Python's `\s` class restricted to ASCII (the characters Python's
regex whitespace class contains in the ASCII range). -/
def pyIsSpace (c : Char) : Bool :=
  c == ' ' || c == '\t' || c == '\n' || c == '\r' || c == '\x0b' || c == '\x0c'

/-- Replace every maximal run of characters satisfying `cls` by the single
character `rep` (the effect of `re.sub(r'X+', rep, s)` for a class `X`).
The flag records whether the previous character was in the class. -/
def squashRuns (cls : Char → Bool) (rep : Char) : Bool → List Char → List Char
  | _, [] => []
  | inRun, c :: cs =>
    if cls c then
      if inRun then squashRuns cls rep true cs
      else rep :: squashRuns cls rep true cs
    else c :: squashRuns cls rep false cs

/-- Python `str.strip(ch)` — remove leading and trailing `ch`. -/
def stripChar (ch : Char) (l : List Char) : List Char :=
  ((l.dropWhile (fun c => c == ch)).reverse.dropWhile (fun c => c == ch)).reverse

/-- `generate_service_id(name)`; the 8 random hex characters
(`uuid.uuid4().hex[:8]`) enter as the explicit parameter `uuidHex8`. -/
def generate_service_id (name : String) (uuidHex8 : String) : String :=
  let lowered := name.data.map Char.toLower
  let kept := lowered.filter fun c =>
    c.isAlpha || c.isDigit || pyIsSpace c || c == '-'
  let dashed := squashRuns (fun c => pyIsSpace c || c == '_') '-' false kept
  let collapsed := squashRuns (fun c => c == '-') '-' false dashed
  let stripped := stripChar '-' collapsed
  let normalized := if stripped.isEmpty then "service".data else stripped
  let truncated := normalized.take 20
  String.mk truncated ++ "-" ++ uuidHex8

/-! ## Registry operations (src/app/services/registry.py) -/

/-- Write back a (mutated) row keyed by `sid`. -/
def Store.updateService (store : Store) (sid : String) (svc : Service) : Store :=
  { store with services := store.services.map fun s => if s.id == sid then svc else s }

/-- The default route that `_create_default_route` builds for service
`svc` behind gateway `gw` (registry.py lines 126-134), with surrogate id
`rid` and creation time `now`. -/
def defaultRouteFor (rid : Nat) (now : Int) (gw svc : Service) : Route :=
  { id := rid
    gatewayServiceId := gw.id
    pathPattern := "/" ++ svc.id ++ "/**"
    targetServiceId := svc.id
    stripPfx := true
    stripPath := some ("/" ++ svc.id)
    priority := 10
    enabled := true
    createdAt := now }

/-- `_create_default_route(db, service)`: pick the first `is_gateway`
service (`select ... limit(1)`); skip when none exists or a route already
targets `service`; otherwise insert the default route. -/
def _create_default_route (now : Int) (store : Store) (svc : Service) : Store :=
  match store.services.find? (fun s => s.isGateway) with
  | none => store
  | some gw =>
    if store.routes.any (fun r => r.targetServiceId == svc.id) then store
    else
      { store with
        routes := store.routes ++ [defaultRouteFor store.nextRouteId now gw svc]
        nextRouteId := store.nextRouteId + 1 }

/-- The record produced by the re-register branch (registry.py lines
59-70): overwrite exactly the supplied fields (`model_dump(exclude_unset
=True)` with `id` popped), then reset the lifecycle fields. -/
def reRegistered (now : Int) (existing : Service) (d : ServiceCreate) : Service :=
  { existing with
    name := d.name
    host := d.host
    port := d.port
    protocol := d.protocol.getD existing.protocol
    healthCheckPath := d.healthCheckPath.getD existing.healthCheckPath
    isGateway := d.isGateway.getD existing.isGateway
    serviceMeta := match d.serviceMeta with
      | some m => m
      | none => existing.serviceMeta
    lastHeartbeat := some now
    status := "unknown"
    consecutiveFailures := 0 }

/-- The id `register_service` operates on (registry.py lines 52-54):
the supplied one when truthy (`if not service_id:`), else synthesized. -/
def effectiveId (uuidHex8 : String) (d : ServiceCreate) : String :=
  match d.id with
  | none => generate_service_id d.name uuidHex8
  | some s => if s == "" then generate_service_id d.name uuidHex8 else s

/-- `register_service(db, service_data)`. The id is the supplied one when
truthy, else synthesized. On an existing id, the re-register branch runs.
On a fresh id the source (registry.py line 82) evaluates
`service_data.base_path` while building the new `Service` row; neither
`ServiceCreate` (app/schemas/service.py) nor the `Service` model
(app/models/service.py) defines `base_path`, so the attribute access
raises and no row is inserted — embedded as the `Except.error` below. -/
def register_service (now : Int) (uuidHex8 : String) (store : Store)
    (d : ServiceCreate) : Except String (Service × Store) :=
  let sid := effectiveId uuidHex8 d
  match store.getService sid with
  | some existing =>
    let updated := reRegistered now existing d
    .ok (updated, store.updateService sid updated)
  | none =>
    .error "AttributeError: 'ServiceCreate' object has no attribute 'base_path'"

/-- `unregister_service(db, service_id)`: `DELETE FROM services WHERE id =
service_id`; the store schema declares `ON DELETE CASCADE` on every
foreign key referencing `services.id` (`app/models/route.py` lines 23-27
and 36-40, `app/models/dependency.py` lines 23-34), so deleting a service
row also deletes every dependency and route referencing it in either
role. Returns `rowcount > 0`. -/
def unregister_service (store : Store) (sid : String) : Bool × Store :=
  if store.services.any (fun s => s.id == sid) then
    (true,
      { store with
        services := store.services.filter (fun s => !(s.id == sid))
        dependencies := store.dependencies.filter
          (fun dep => !(dep.sourceServiceId == sid) && !(dep.targetServiceId == sid))
        routes := store.routes.filter
          (fun r => !(r.gatewayServiceId == sid) && !(r.targetServiceId == sid)) })
  else (false, store)

/-- `heartbeat(db, service_id)`: absent id → `None`, state untouched;
otherwise set `last_heartbeat = now`, `status = "healthy"`,
`consecutive_failures = 0` and return the row. -/
def heartbeat (now : Int) (store : Store) (sid : String) :
    Option Service × Store :=
  match store.getService sid with
  | none => (none, store)
  | some svc =>
    let updated := { svc with
      lastHeartbeat := some now
      status := "healthy"
      consecutiveFailures := 0 }
    (some updated, store.updateService sid updated)

/-! ## Health engine (src/app/services/health.py) -/

/-- `update_service_status(db, service, is_healthy)` — the per-probe
status transition. -/
def update_service_status (st : Settings) (svc : Service)
    (isHealthy : Bool) : Service :=
  if isHealthy then
    { svc with status := "healthy", consecutiveFailures := 0 }
  else
    let failures := svc.consecutiveFailures + 1
    if failures ≥ st.unhealthyThreshold then
      { svc with consecutiveFailures := failures, status := "unhealthy" }
    else
      { svc with consecutiveFailures := failures }

/-- The sweep's selection predicate (health.py lines 102-105):
`last_heartbeat < now - heartbeat_timeout AND status != "unhealthy"`.
A SQL comparison against NULL is not satisfied, so a row with no
heartbeat is never selected. -/
def timedOut (st : Settings) (now : Int) (svc : Service) : Bool :=
  (match svc.lastHeartbeat with
    | some t => t < now - (st.heartbeatTimeout : Int)
    | none => false)
  && svc.status != "unhealthy"

/-- `check_heartbeat_timeout()`: mark every selected service
`"unhealthy"` and return how many were marked. -/
def check_heartbeat_timeout (st : Settings) (now : Int) (store : Store) :
    Nat × Store :=
  ((store.services.filter (timedOut st now)).length,
    { store with
      services := store.services.map fun s =>
        if timedOut st now s then { s with status := "unhealthy" } else s })

/-! ## Route service (src/app/services/gateway.py) -/

/-- The `ORDER BY priority DESC, created_at DESC` ordering of
`get_all_routes` (gateway.py line 107): `a` comes no later than `b`. -/
def RouteOrder (a b : Route) : Prop :=
  b.priority < a.priority ∨ (a.priority = b.priority ∧ b.createdAt ≤ a.createdAt)

instance : DecidableRel RouteOrder := fun a b => by
  unfold RouteOrder; infer_instance

instance : IsTotal Route RouteOrder := by
  constructor
  intro a b
  unfold RouteOrder
  omega

instance : IsTrans Route RouteOrder := by
  constructor
  intro a b c hab hbc
  unfold RouteOrder at *
  omega

/-- `get_all_routes(db, gateway_id, enabled_only)`: filter, then sort by
`(priority DESC, created_at DESC)`. `if gateway_id:` is a Python
truthiness test, so an empty-string id disables the filter. -/
def get_all_routes (store : Store) (gatewayId : Option String)
    (enabledOnly : Bool) : List Route :=
  let q := store.routes
  let q := if pyTruthy gatewayId then
      q.filter (fun r => r.gatewayServiceId == gatewayId.getD "")
    else q
  let q := if enabledOnly then q.filter (fun r => r.enabled) else q
  q.insertionSort RouteOrder

/-- The `ORDER BY priority DESC` ordering used by
`find_route_for_service` (gateway.py line 168). -/
def PriorityOrder (a b : Route) : Prop := b.priority ≤ a.priority

instance : DecidableRel PriorityOrder := fun a b => by
  unfold PriorityOrder; infer_instance

instance : IsTotal Route PriorityOrder := by
  constructor; intro a b; unfold PriorityOrder; omega

instance : IsTrans Route PriorityOrder := by
  constructor; intro a b c hab hbc; unfold PriorityOrder at *; omega

/-- `find_route_for_service(db, gateway_id, target_service_id)`: the
first enabled route from the gateway to the target under
`ORDER BY priority DESC`. -/
def find_route_for_service (store : Store) (gatewayId targetServiceId : String) :
    Option Route :=
  ((store.routes.filter fun r =>
      r.gatewayServiceId == gatewayId
      && r.targetServiceId == targetServiceId
      && r.enabled).insertionSort PriorityOrder).head?

/-! ## Gateway-routes enrichment (src/app/api/gateway.py, `get_gateway_routes`) -/

/-- `TargetServiceInfo` (app/schemas/route.py). -/
structure TargetServiceInfo where
  id : String
  name : String
  host : String
  port : Nat
  protocol : String
  status : String
  baseUrl : String
deriving Repr, DecidableEq

/-- `AuthServiceInfo` (app/schemas/route.py). -/
structure AuthServiceInfo where
  id : String
  name : String
  baseUrl : String
  authEndpoint : Option String := none
deriving Repr, DecidableEq

/-- `GatewayRouteResponse` (app/schemas/route.py). -/
structure GatewayRouteResponse where
  id : Nat
  pathPattern : String
  methods : String
  targetServiceId : String
  targetService : TargetServiceInfo
  stripPfx : Bool
  stripPath : Option String
  priority : Nat
  enabled : Bool
  authConfig : Option AuthConfig := none
  authService : Option AuthServiceInfo := none
deriving Repr, DecidableEq

/-- `service_meta.get("service_type")` with the `or {}` guard. -/
def metaServiceType (s : Service) : Option String :=
  s.serviceMeta.bind Meta.serviceType

/-- The `auth_services` index (gateway.py lines 162-167): every service
whose `service_meta.service_type == "authentication"`, looked up by id
(ids are the primary key, so the dict lookup is a `find?`). -/
def lookupAuthService (store : Store) (aid : String) : Option Service :=
  (store.services.filter fun s => metaServiceType s == some "authentication").find?
    (fun s => s.id == aid)

/-- The `login_redirect` rewriting of gateway.py lines 200-222, applied
to a cloned `auth_config` when the route names a known auth service. -/
def deriveLoginRedirect (store : Store) (gatewayId : String)
    (authServiceId : String) (authSvc : Service) (ac : AuthConfig) : AuthConfig :=
  if pyTruthy ac.loginRedirect then ac
  else
    match authSvc.serviceMeta.bind Meta.loginPath with
    | none => ac
    | some lp =>
      if lp == "" then ac
      else
        let loginPath := ensureLeadingSlash lp
        match find_route_for_service store gatewayId authServiceId with
        | some authRoute =>
          if authRoute.stripPfx then
            let gatewayPrefix := pyOrStr authRoute.stripPath ("/" ++ authServiceId)
            { ac with loginRedirect := some (gatewayPrefix ++ loginPath) }
          else if pyTruthy (some authSvc.baseUrl) then
            { ac with loginRedirect := some (rstripSlashes authSvc.baseUrl ++ loginPath) }
          else ac
        | none =>
          if pyTruthy (some authSvc.baseUrl) then
            { ac with loginRedirect := some (rstripSlashes authSvc.baseUrl ++ loginPath) }
          else ac

/-- The per-route body of the enrichment loop (gateway.py lines 171-246).
Returns `none` when the target service is missing (the route is skipped). -/
def enrich_route (store : Store) (gatewayId : String) (route : Route) :
    Option GatewayRouteResponse :=
  match store.getService route.targetServiceId with
  | none => none
  | some target =>
    let acInfo : Option AuthConfig × Option AuthServiceInfo :=
      match route.authConfig with
      | none => (none, none)
      | some ac =>
        match ac.authServiceId with
        | some aid =>
          if aid == "" then (some ac, none)
          else
            match lookupAuthService store aid with
            | some authSvc =>
              let meta := authSvc.serviceMeta
              (some (deriveLoginRedirect store gatewayId aid authSvc ac),
               some { id := authSvc.id
                      name := authSvc.name
                      baseUrl := authSvc.baseUrl
                      authEndpoint := meta.bind Meta.authEndpoint })
            | none => (some ac, none)
        | none => (some ac, none)
    some
      { id := route.id
        pathPattern := route.pathPattern
        methods := route.methods
        targetServiceId := route.targetServiceId
        targetService :=
          { id := target.id
            name := target.name
            host := target.host
            port := target.port
            protocol := target.protocol
            status := target.status
            baseUrl := target.baseUrl }
        stripPfx := route.stripPfx
        stripPath := route.stripPath
        priority := route.priority
        enabled := route.enabled
        authConfig := acInfo.1
        authService := acInfo.2 }

/-- `GET /gateway/routes` (gateway.py `get_gateway_routes`): 404 when the
caller id is unknown, 403 when it is not a gateway, otherwise the
enriched projection of its enabled routes in match order. -/
def get_gateway_routes (store : Store) (xGatewayId : String) :
    Except Nat (List GatewayRouteResponse) :=
  match store.getService xGatewayId with
  | none => .error 404
  | some gw =>
    if !gw.isGateway then .error 403
    else .ok ((get_all_routes store (some xGatewayId) true).filterMap
      (enrich_route store xGatewayId))

/-! ## Shared lemmas -/

/-- Boolean sweep predicate unfolded to its propositional reading. -/
theorem timedOut_iff (st : Settings) (now : Int) (s : Service) :
    timedOut st now s = true ↔
      (∃ t, s.lastHeartbeat = some t ∧ t < now - (st.heartbeatTimeout : Int))
        ∧ s.status ≠ "unhealthy" := by
  unfold timedOut
  cases h : s.lastHeartbeat with
  | none => simp [h]
  | some t => simp [h]

/-! ## Claim theorems -/

/-- C10: the single-star wildcard of `match_path` is not bounded by path
segments: the pattern `/api/*` (containing exactly one `*`) matches the
path `/api/a/b`, whose wildcard portion `a/b` contains a `/`, because
matching delegates to fnmatch where `*` matches any characters. -/
theorem match_path_star_crosses_segments :
    match_path "/api/*" "/api/a/b" = true
      ∧ ("/api/*".data.count '*') = 1
      ∧ "/api/a/b" = "/api/" ++ "a/b"
      ∧ '/' ∈ "a/b".data := by
  refine ⟨by decide, by decide, rfl, by decide⟩

/-- C1 (failing input): registering a service whose id (here synthesized
from the name `"Deck"`) matches no existing record does not insert a row:
the new-service branch of `register_service` (registry.py line 82)
evaluates `service_data.base_path`, a field `ServiceCreate` does not
define, so the call raises instead of returning the stored record. -/
theorem register_new_service_raises :
    register_service 0 "a1b2c3d4" {} { name := "Deck", host := "1.2.3.4", port := 8000 }
      = .error "AttributeError: 'ServiceCreate' object has no attribute 'base_path'" := rfl

/-- C2 (counterexample): the heartbeat-timeout sweep transitions a
service with `consecutive_failures = 0` to `"unhealthy"` even though
`0 < unhealthy_threshold` (default 3) — the sweep never touches the
failure counter, refuting the claim for sweep transitions. -/
theorem sweep_transition_below_threshold :
    ((check_heartbeat_timeout {} 1000
        { services := [{ id := "s1", name := "S", host := "h", port := 1,
                         status := "healthy", lastHeartbeat := some 0,
                         registeredAt := 0, consecutiveFailures := 0 }] }).2.services.map
      (fun s => (s.status, s.consecutiveFailures))) = [("unhealthy", 0)]
      ∧ (0 : Nat) < ({} : Settings).unhealthyThreshold := by
  refine ⟨by decide, by decide⟩

/-- C2 (amended): at every active-probe transition into `"unhealthy"`
(`update_service_status` moving a service from a non-`"unhealthy"` status
to `"unhealthy"`), the updated `consecutive_failures` is at least
`unhealthy_threshold`; the heartbeat-timeout sweep gives no such bound. -/
theorem probe_transition_meets_threshold (st : Settings) (svc : Service)
    (isHealthy : Bool)
    (hpre : svc.status ≠ "unhealthy")
    (hpost : (update_service_status st svc isHealthy).status = "unhealthy") :
    st.unhealthyThreshold ≤ (update_service_status st svc isHealthy).consecutiveFailures := by
  cases isHealthy with
  | true => simp [update_service_status] at hpost
  | false =>
    unfold update_service_status at hpost ⊢
    simp only [Bool.false_eq_true, if_false] at hpost ⊢
    by_cases hth : svc.consecutiveFailures + 1 ≥ st.unhealthyThreshold
    · simp [hth]
    · simp [hth] at hpost
      exact absurd hpost hpre

/-- C2 witness: with the default threshold 3, a third consecutive probe
failure on a previously-`"healthy"` service transitions it to
`"unhealthy"` with the counter at the threshold. -/
theorem probe_transition_meets_threshold_witness :
    ({} : Settings).unhealthyThreshold ≤
      (update_service_status {}
        { id := "s1", name := "S", host := "h", port := 1,
          status := "healthy", consecutiveFailures := 2, registeredAt := 0 }
        false).consecutiveFailures :=
  probe_transition_meets_threshold {}
    { id := "s1", name := "S", host := "h", port := 1,
      status := "healthy", consecutiveFailures := 2, registeredAt := 0 }
    false (by decide) (by decide)

/-- C5: the heartbeat-timeout sweep marks `"unhealthy"` exactly the
services that are not already `"unhealthy"` and whose `last_heartbeat`
is strictly earlier than `now - heartbeat_timeout` (changing nothing
else on those rows), leaves every other service row — and the routes and
dependencies tables — unchanged, and returns the number of rows marked. -/
theorem sweep_marks_exactly_timed_out (st : Settings) (now : Int) (store : Store) :
    List.Forall₂ (fun s s1 =>
        ((∃ t, s.lastHeartbeat = some t ∧ t < now - (st.heartbeatTimeout : Int))
            ∧ s.status ≠ "unhealthy" → s1 = { s with status := "unhealthy" })
        ∧ (¬ ((∃ t, s.lastHeartbeat = some t ∧ t < now - (st.heartbeatTimeout : Int))
            ∧ s.status ≠ "unhealthy") → s1 = s))
      store.services (check_heartbeat_timeout st now store).2.services
      ∧ (check_heartbeat_timeout st now store).1
        = (store.services.filter (timedOut st now)).length
      ∧ (∀ s, timedOut st now s = true ↔
          (∃ t, s.lastHeartbeat = some t ∧ t < now - (st.heartbeatTimeout : Int))
            ∧ s.status ≠ "unhealthy")
      ∧ (check_heartbeat_timeout st now store).2.routes = store.routes
      ∧ (check_heartbeat_timeout st now store).2.dependencies = store.dependencies := by
  refine ⟨?_, rfl, fun s => timedOut_iff st now s, rfl, rfl⟩
  show List.Forall₂ _ store.services (store.services.map _)
  rw [List.forall₂_map_right_iff, List.forall₂_same]
  intro s _
  by_cases h : timedOut st now s = true
  · have hp := (timedOut_iff st now s).mp h
    exact ⟨fun _ => by simp [h], fun hc => absurd hp hc⟩
  · have hp := fun hc => h ((timedOut_iff st now s).mpr hc)
    exact ⟨fun hc => absurd hc hp, fun _ => by simp [h]⟩

/-- C7: `heartbeat(id)` on an existing service unconditionally sets
`last_heartbeat = now`, `status = "healthy"`, `consecutive_failures = 0`
(all other fields preserved), stores the row back and returns it; on an
absent id it returns `None` and leaves the store untouched. -/
theorem heartbeat_resets_unconditionally (now : Int) (store : Store) (sid : String) :
    (∀ svc, store.getService sid = some svc →
      ∃ svc1, heartbeat now store sid = (some svc1, store.updateService sid svc1)
        ∧ svc1.lastHeartbeat = some now
        ∧ svc1.status = "healthy"
        ∧ svc1.consecutiveFailures = 0
        ∧ svc1.id = svc.id ∧ svc1.name = svc.name ∧ svc1.host = svc.host
        ∧ svc1.port = svc.port ∧ svc1.protocol = svc.protocol
        ∧ svc1.healthCheckPath = svc.healthCheckPath
        ∧ svc1.isGateway = svc.isGateway ∧ svc1.serviceMeta = svc.serviceMeta
        ∧ svc1.registeredAt = svc.registeredAt)
      ∧ (store.getService sid = none → heartbeat now store sid = (none, store)) := by
  constructor
  · intro svc h
    refine ⟨{ svc with lastHeartbeat := some now, status := "healthy", consecutiveFailures := 0 },
      ?_, rfl, rfl, rfl, rfl, rfl, rfl, rfl, rfl, rfl, rfl, rfl, rfl⟩
    simp [heartbeat, h]
  · intro h
    simp [heartbeat, h]

/-- C7 witness: a service that is `"unhealthy"` with 5 consecutive
failures is reset by a heartbeat at time 42. -/
theorem heartbeat_resets_unconditionally_witness :
    ∃ svc1,
      heartbeat 42
        { services := [{ id := "s1", name := "S", host := "h", port := 1,
                         status := "unhealthy", consecutiveFailures := 5,
                         registeredAt := 0 }] } "s1"
        = (some svc1,
           Store.updateService
             { services := [{ id := "s1", name := "S", host := "h", port := 1,
                              status := "unhealthy", consecutiveFailures := 5,
                              registeredAt := 0 }] } "s1" svc1)
      ∧ svc1.lastHeartbeat = some 42
      ∧ svc1.status = "healthy"
      ∧ svc1.consecutiveFailures = 0
      ∧ svc1.id = "s1" ∧ svc1.name = "S" ∧ svc1.host = "h"
      ∧ svc1.port = 1 ∧ svc1.protocol = "http"
      ∧ svc1.healthCheckPath = "/health"
      ∧ svc1.isGateway = false ∧ svc1.serviceMeta = none
      ∧ svc1.registeredAt = 0 :=
  (heartbeat_resets_unconditionally 42
    { services := [{ id := "s1", name := "S", host := "h", port := 1,
                     status := "unhealthy", consecutiveFailures := 5,
                     registeredAt := 0 }] } "s1").1
    { id := "s1", name := "S", host := "h", port := 1,
      status := "unhealthy", consecutiveFailures := 5, registeredAt := 0 } rfl

/-- C4: the default-route injector inserts — exactly when a gateway
service exists and no route already targets the new service — a single
route with `path_pattern = "/{id}/**"`, `strip_prefix = true`,
`strip_path = "/{id}"`, `priority = 10`, `enabled = true`, targeting the
new service and owned by a gateway (`is_gateway = true`) service from
the store; otherwise it inserts nothing. -/
theorem default_route_injector_exact (now : Int) (store : Store) (svc : Service) :
    (∀ gw, store.services.find? (fun s => s.isGateway) = some gw →
      store.routes.any (fun r => r.targetServiceId == svc.id) = false →
      ∃ r, (_create_default_route now store svc).routes = store.routes ++ [r]
        ∧ r.pathPattern = "/" ++ svc.id ++ "/**"
        ∧ r.stripPfx = true
        ∧ r.stripPath = some ("/" ++ svc.id)
        ∧ r.priority = 10
        ∧ r.enabled = true
        ∧ r.targetServiceId = svc.id
        ∧ r.gatewayServiceId = gw.id
        ∧ gw ∈ store.services ∧ gw.isGateway = true
        ∧ (_create_default_route now store svc).services = store.services
        ∧ (_create_default_route now store svc).dependencies = store.dependencies)
    ∧ (store.services.find? (fun s => s.isGateway) = none →
        _create_default_route now store svc = store)
    ∧ (store.routes.any (fun r => r.targetServiceId == svc.id) = true →
        _create_default_route now store svc = store)
    ∧ (store.services.find? (fun s => s.isGateway) = none ↔
        ∀ s ∈ store.services, s.isGateway = false) := by
  refine ⟨?_, ?_, ?_, ?_⟩
  · intro gw hgw hno
    refine ⟨defaultRouteFor store.nextRouteId now gw svc, ?_, rfl, rfl, rfl, rfl, rfl,
      rfl, rfl, List.mem_of_find?_eq_some hgw, by simpa using List.find?_some hgw, ?_, ?_⟩
    · simp [_create_default_route, hgw, hno]
    · simp [_create_default_route, hgw, hno]
    · simp [_create_default_route, hgw, hno]
  · intro hgw
    simp [_create_default_route, hgw]
  · intro hany
    unfold _create_default_route
    cases hfind : store.services.find? (fun s => s.isGateway) with
    | none => rfl
    | some gw => simp [hany]
  · rw [List.find?_eq_none]
    constructor
    · intro h s hs
      simpa using h s hs
    · intro h s hs
      simp [h s hs]

/-- C4 witness: with one gateway `gw` in the store and no routes, the
injector run for the non-gateway service `app1` appends exactly the
default route. -/
theorem default_route_injector_exact_witness :
    ∃ r, (_create_default_route 5
        { services := [{ id := "gw", name := "G", host := "h", port := 80,
                         isGateway := true, registeredAt := 0 }] }
        { id := "app1", name := "A", host := "h2", port := 81, registeredAt := 0 }).routes
      = ([] : List Route) ++ [r]
      ∧ r.pathPattern = "/" ++ "app1" ++ "/**"
      ∧ r.stripPfx = true
      ∧ r.stripPath = some ("/" ++ "app1")
      ∧ r.priority = 10
      ∧ r.enabled = true
      ∧ r.targetServiceId = "app1"
      ∧ r.gatewayServiceId = "gw"
      ∧ { id := "gw", name := "G", host := "h", port := 80, isGateway := true, registeredAt := 0 }
          ∈ [({ id := "gw", name := "G", host := "h", port := 80, isGateway := true, registeredAt := 0 } : Service)]
      ∧ ({ id := "gw", name := "G", host := "h", port := 80, isGateway := true, registeredAt := 0 } : Service).isGateway = true
      ∧ (_create_default_route 5
          { services := [{ id := "gw", name := "G", host := "h", port := 80,
                           isGateway := true, registeredAt := 0 }] }
          { id := "app1", name := "A", host := "h2", port := 81, registeredAt := 0 }).services
        = [{ id := "gw", name := "G", host := "h", port := 80, isGateway := true, registeredAt := 0 }]
      ∧ (_create_default_route 5
          { services := [{ id := "gw", name := "G", host := "h", port := 80,
                           isGateway := true, registeredAt := 0 }] }
          { id := "app1", name := "A", host := "h2", port := 81, registeredAt := 0 }).dependencies
        = [] :=
  (default_route_injector_exact 5
    { services := [{ id := "gw", name := "G", host := "h", port := 80,
                     isGateway := true, registeredAt := 0 }] }
    { id := "app1", name := "A", host := "h2", port := 81, registeredAt := 0 }).1
    { id := "gw", name := "G", host := "h", port := 80, isGateway := true, registeredAt := 0 }
    rfl rfl

/-- C6: when the effective id matches an existing record,
`register_service` is an upsert: it overwrites exactly the supplied
fields (unsupplied optional fields keep the stored values,
`registered_at` is untouched), resets `last_heartbeat = now`,
`status = "unknown"`, `consecutive_failures = 0`, writes the row back
under the same id and returns it. -/
theorem register_existing_is_upsert (now : Int) (uuid : String) (store : Store)
    (d : ServiceCreate) (existing : Service)
    (h : store.getService (effectiveId uuid d) = some existing) :
    ∃ svc1 store1, register_service now uuid store d = .ok (svc1, store1)
      ∧ svc1.id = existing.id
      ∧ svc1.name = d.name
      ∧ svc1.host = d.host
      ∧ svc1.port = d.port
      ∧ svc1.protocol = d.protocol.getD existing.protocol
      ∧ svc1.healthCheckPath = d.healthCheckPath.getD existing.healthCheckPath
      ∧ svc1.isGateway = d.isGateway.getD existing.isGateway
      ∧ svc1.serviceMeta = (match d.serviceMeta with
          | some m => m
          | none => existing.serviceMeta)
      ∧ svc1.registeredAt = existing.registeredAt
      ∧ svc1.lastHeartbeat = some now
      ∧ svc1.status = "unknown"
      ∧ svc1.consecutiveFailures = 0
      ∧ store1.services = store.services.map
          (fun s => if s.id == effectiveId uuid d then svc1 else s)
      ∧ store1.routes = store.routes
      ∧ store1.dependencies = store.dependencies := by
  refine ⟨reRegistered now existing d, store.updateService (effectiveId uuid d)
      (reRegistered now existing d),
    ?_, rfl, rfl, rfl, rfl, rfl, rfl, rfl, rfl, rfl, rfl, rfl, rfl, rfl, rfl, rfl⟩
  simp [register_service, h]

/-- C6 witness: re-registering id `app1` (present in the store with
status `"healthy"`) overwrites the supplied fields and resets the
lifecycle fields. -/
theorem register_existing_is_upsert_witness :
    ∃ svc1 store1,
      register_service 50 "deadbeef"
        { services := [{ id := "app1", name := "Old", host := "oldhost", port := 1,
                         status := "healthy", consecutiveFailures := 2,
                         registeredAt := 7, lastHeartbeat := some 9 }] }
        { id := some "app1", name := "New", host := "newhost", port := 2 }
      = .ok (svc1, store1)
      ∧ svc1.id = "app1"
      ∧ svc1.name = "New"
      ∧ svc1.host = "newhost"
      ∧ svc1.port = 2
      ∧ svc1.protocol = (none : Option String).getD "http"
      ∧ svc1.healthCheckPath = (none : Option String).getD "/health"
      ∧ svc1.isGateway = (none : Option Bool).getD false
      ∧ svc1.serviceMeta = (none : Option Meta)
      ∧ svc1.registeredAt = 7
      ∧ svc1.lastHeartbeat = some 50
      ∧ svc1.status = "unknown"
      ∧ svc1.consecutiveFailures = 0 := by
  have h := register_existing_is_upsert 50 "deadbeef"
    { services := [{ id := "app1", name := "Old", host := "oldhost", port := 1,
                     status := "healthy", consecutiveFailures := 2,
                     registeredAt := 7, lastHeartbeat := some 9 }] }
    { id := some "app1", name := "New", host := "newhost", port := 2 }
    { id := "app1", name := "Old", host := "oldhost", port := 1,
      status := "healthy", consecutiveFailures := 2,
      registeredAt := 7, lastHeartbeat := some 9 }
    rfl
  obtain ⟨svc1, store1, heq, hrest⟩ := h
  exact ⟨svc1, store1, heq, by simpa using hrest.1, hrest.2.1, hrest.2.2.1, hrest.2.2.2.1,
    hrest.2.2.2.2.1, hrest.2.2.2.2.2.1, hrest.2.2.2.2.2.2.1,
    by simpa using hrest.2.2.2.2.2.2.2.1,
    by simpa using hrest.2.2.2.2.2.2.2.2.1,
    hrest.2.2.2.2.2.2.2.2.2.1, hrest.2.2.2.2.2.2.2.2.2.2.1,
    hrest.2.2.2.2.2.2.2.2.2.2.2.1⟩

/-- C8: unregistering an existing service removes its row, every
dependency and every route that mentions it in either role (source or
target, gateway or target), keeps all rows not mentioning it, and
returns `true`; unregistering an absent id returns `false` and changes
nothing (the return value is `true` exactly when a row was removed). -/
theorem unregister_cascades (store : Store) (sid : String) :
    (store.services.any (fun s => s.id == sid) = true →
      (unregister_service store sid).1 = true
      ∧ (∀ s ∈ (unregister_service store sid).2.services, s.id ≠ sid)
      ∧ (∀ dep ∈ (unregister_service store sid).2.dependencies,
          dep.sourceServiceId ≠ sid ∧ dep.targetServiceId ≠ sid)
      ∧ (∀ r ∈ (unregister_service store sid).2.routes,
          r.gatewayServiceId ≠ sid ∧ r.targetServiceId ≠ sid)
      ∧ (∀ s ∈ store.services, s.id ≠ sid → s ∈ (unregister_service store sid).2.services)
      ∧ (∀ dep ∈ store.dependencies, dep.sourceServiceId ≠ sid →
          dep.targetServiceId ≠ sid → dep ∈ (unregister_service store sid).2.dependencies)
      ∧ (∀ r ∈ store.routes, r.gatewayServiceId ≠ sid →
          r.targetServiceId ≠ sid → r ∈ (unregister_service store sid).2.routes))
    ∧ (store.services.any (fun s => s.id == sid) = false →
        unregister_service store sid = (false, store))
    ∧ (store.services.any (fun s => s.id == sid) = true ↔
        ∃ s ∈ store.services, s.id = sid) := by
  refine ⟨?_, ?_, by simp⟩
  · intro hany
    refine ⟨by simp [unregister_service, hany], ?_, ?_, ?_, ?_, ?_, ?_⟩
    · intro s hs
      simp [unregister_service, hany, List.mem_filter] at hs
      exact hs.2
    · intro dep hdep
      simp [unregister_service, hany, List.mem_filter] at hdep
      exact hdep.2
    · intro r hr
      simp [unregister_service, hany, List.mem_filter] at hr
      exact hr.2
    · intro s hs hne
      simp [unregister_service, hany, List.mem_filter]
      exact ⟨hs, hne⟩
    · intro dep hdep hs ht
      simp [unregister_service, hany, List.mem_filter]
      exact ⟨hdep, hs, ht⟩
    · intro r hr hg ht
      simp [unregister_service, hany, List.mem_filter]
      exact ⟨hr, hg, ht⟩
  · intro hany
    simp [unregister_service, hany]

/-- C8 witness: deleting `svcB` from a store holding services `gw`,
`svcA`, `svcB`, a dependency `svcA → svcB` and a route `gw → svcB`
returns `true`; the surviving tables contain no row mentioning `svcB`. -/
theorem unregister_cascades_witness :
    (unregister_service
        { services := [{ id := "gw", name := "G", host := "h", port := 1, isGateway := true, registeredAt := 0 }, { id := "svcA", name := "A", host := "h", port := 2, registeredAt := 0 }, { id := "svcB", name := "B", host := "h", port := 3, registeredAt := 0 }]
          routes := [{ id := 1, gatewayServiceId := "gw", pathPattern := "/svcB/**", targetServiceId := "svcB", createdAt := 0 }]
          dependencies := [{ id := 1, sourceServiceId := "svcA", targetServiceId := "svcB", createdAt := 0 }] }
        "svcB").1 = true
      ∧ (∀ dep ∈ (unregister_service
          { services := [{ id := "gw", name := "G", host := "h", port := 1, isGateway := true, registeredAt := 0 }, { id := "svcA", name := "A", host := "h", port := 2, registeredAt := 0 }, { id := "svcB", name := "B", host := "h", port := 3, registeredAt := 0 }]
            routes := [{ id := 1, gatewayServiceId := "gw", pathPattern := "/svcB/**", targetServiceId := "svcB", createdAt := 0 }]
            dependencies := [{ id := 1, sourceServiceId := "svcA", targetServiceId := "svcB", createdAt := 0 }] }
          "svcB").2.dependencies, dep.sourceServiceId ≠ "svcB" ∧ dep.targetServiceId ≠ "svcB")
      ∧ (∀ r ∈ (unregister_service
          { services := [{ id := "gw", name := "G", host := "h", port := 1, isGateway := true, registeredAt := 0 }, { id := "svcA", name := "A", host := "h", port := 2, registeredAt := 0 }, { id := "svcB", name := "B", host := "h", port := 3, registeredAt := 0 }]
            routes := [{ id := 1, gatewayServiceId := "gw", pathPattern := "/svcB/**", targetServiceId := "svcB", createdAt := 0 }]
            dependencies := [{ id := 1, sourceServiceId := "svcA", targetServiceId := "svcB", createdAt := 0 }] }
          "svcB").2.routes, r.gatewayServiceId ≠ "svcB" ∧ r.targetServiceId ≠ "svcB") := by
  have h := (unregister_cascades
    { services := [{ id := "gw", name := "G", host := "h", port := 1, isGateway := true, registeredAt := 0 }, { id := "svcA", name := "A", host := "h", port := 2, registeredAt := 0 }, { id := "svcB", name := "B", host := "h", port := 3, registeredAt := 0 }]
      routes := [{ id := 1, gatewayServiceId := "gw", pathPattern := "/svcB/**", targetServiceId := "svcB", createdAt := 0 }]
      dependencies := [{ id := 1, sourceServiceId := "svcA", targetServiceId := "svcB", createdAt := 0 }] }
    "svcB").1 (by decide)
  exact ⟨h.1, h.2.2.1, h.2.2.2.1⟩

/-- C9: `get_all_routes` returns exactly the routes passing the
gateway/enabled filters, arranged so that every earlier entry has
strictly higher priority than each later one, or equal priority and a
no-earlier `created_at` (`priority DESC, created_at DESC`). -/
theorem get_all_routes_sorted (store : Store) (gatewayId : Option String)
    (enabledOnly : Bool) :
    (get_all_routes store gatewayId enabledOnly).Perm
        (let q := store.routes
         let q := if pyTruthy gatewayId then
             q.filter (fun r => r.gatewayServiceId == gatewayId.getD "")
           else q
         if enabledOnly then q.filter (fun r => r.enabled) else q)
      ∧ (get_all_routes store gatewayId enabledOnly).Sorted RouteOrder
      ∧ (∀ a b : Route, RouteOrder a b ↔
          (b.priority < a.priority ∨ (a.priority = b.priority ∧ b.createdAt ≤ a.createdAt))) :=
  ⟨List.perm_insertionSort RouteOrder _, List.sorted_insertionSort RouteOrder _,
    fun _ _ => Iff.rfl⟩

/-! ## The S5 configuration (spec §8): gateway `gw`, authentication
service `aegis` with `login_path = "/admin/login"`, the route
`/aegis/** → aegis` (`strip_prefix`, `strip_path = "/aegis"`,
priority 10), and a second, lower-priority route whose `auth_config`
names `aegis` and supplies no `login_redirect`. -/

/-- S5 gateway service. -/
def s5Gateway : Service :=
  { id := "gw", name := "Gateway", host := "h", port := 80, isGateway := true, registeredAt := 0 }

/-- S5 authentication service. -/
def s5Aegis : Service :=
  { id := "aegis"
    name := "Aegis"
    host := "h2"
    port := 81
    registeredAt := 0
    serviceMeta := some { serviceType := some "authentication", loginPath := some "/admin/login" } }

/-- S5 plain application service. -/
def s5App : Service :=
  { id := "app1", name := "App", host := "h3", port := 82, registeredAt := 0 }

/-- S5 route from the gateway to the auth service. -/
def s5AegisRoute : Route :=
  { id := 1
    gatewayServiceId := "gw"
    pathPattern := "/aegis/**"
    targetServiceId := "aegis"
    stripPfx := true
    stripPath := some "/aegis"
    priority := 10
    createdAt := 1 }

/-- S5 route guarded by `auth_config` naming `aegis`, no
`login_redirect`. -/
def s5AppRoute : Route :=
  { id := 2
    gatewayServiceId := "gw"
    pathPattern := "/app1/**"
    targetServiceId := "app1"
    stripPfx := true
    stripPath := some "/app1"
    priority := 5
    createdAt := 2
    authConfig := some { requireAuth := true, authServiceId := some "aegis" } }

/-- The S5 store. -/
def s5Store : Store :=
  { services := [s5Gateway, s5Aegis, s5App]
    routes := [s5AegisRoute, s5AppRoute]
    nextRouteId := 3 }

/-- An `auth_config` clone with the derived `login_redirect` filled in. -/
def withLoginRedirect (ac : AuthConfig) (lr : String) : AuthConfig :=
  { ac with loginRedirect := some lr }

/-- The embedded `auth_service` descriptor built by the enrichment. -/
def authInfoOf (authSvc : Service) : AuthServiceInfo :=
  { id := authSvc.id, name := authSvc.name, baseUrl := authSvc.baseUrl, authEndpoint := authSvc.serviceMeta.bind Meta.authEndpoint }

/-- C3: in the gateway-routes enrichment, a route whose `auth_config`
names a known authentication service and supplies no `login_redirect`
gets `login_redirect = gateway_prefix ++ login_path`, where
`gateway_prefix` is the `strip_path` of the highest-priority enabled
gateway→auth route (falling back to `"/{auth_service_id}"`) whenever
that route has `strip_prefix`, and `login_path` is normalized to start
with `"/"`; in the S5 configuration the second returned entry derives
`login_redirect = "/aegis/admin/login"` with `auth_service.id = "aegis"`. -/
theorem login_redirect_via_gateway_prefix :
    (∀ (store : Store) (gwId : String) (route : Route) (ac : AuthConfig)
        (aid : String) (authSvc : Service) (lp : String) (ar : Route) (target : Service),
      store.getService route.targetServiceId = some target →
      route.authConfig = some ac →
      ac.authServiceId = some aid →
      aid ≠ "" →
      lookupAuthService store aid = some authSvc →
      ac.loginRedirect = none →
      authSvc.serviceMeta.bind Meta.loginPath = some lp →
      lp ≠ "" →
      find_route_for_service store gwId aid = some ar →
      ar.stripPfx = true →
      ∃ resp, enrich_route store gwId route = some resp
        ∧ resp.authConfig
          = some (withLoginRedirect ac (pyOrStr ar.stripPath ("/" ++ aid) ++ ensureLeadingSlash lp))
        ∧ resp.authService = some (authInfoOf authSvc))
    ∧ ((get_gateway_routes s5Store "gw").toOption.bind (fun l => l.get? 1)
        |>.bind (fun r => r.authConfig) |>.bind (fun a => a.loginRedirect))
        = some "/aegis/admin/login"
    ∧ ((get_gateway_routes s5Store "gw").toOption.bind (fun l => l.get? 1)
        |>.bind (fun r => r.authService) |>.map (fun a => a.id)) = some "aegis" := by
  refine ⟨?_, by decide, by decide⟩
  intro store gwId route ac aid authSvc lp ar target
  intro htarget hac haid haidne hauth hnolr hlp hlpne har hsp
  refine ⟨⟨route.id, route.pathPattern, route.methods, route.targetServiceId,
    ⟨target.id, target.name, target.host, target.port, target.protocol, target.status,
      target.baseUrl⟩,
    route.stripPfx, route.stripPath, route.priority, route.enabled,
    some (withLoginRedirect ac (pyOrStr ar.stripPath ("/" ++ aid) ++ ensureLeadingSlash lp)),
    some (authInfoOf authSvc)⟩, ?_, rfl, rfl⟩
  have h1 : (aid == "") = false := by simpa using haidne
  have h2 : (lp == "") = false := by simpa using hlpne
  simp only [enrich_route, htarget, hac, haid, hauth, h1, Bool.false_eq_true, if_false]
  simp [deriveLoginRedirect, hnolr, hlp, pyTruthy, har, hsp, h2, withLoginRedirect, authInfoOf]

/-- C3 witness: the derivation applied to the S5 `auth_config` route
yields `login_redirect = "/aegis" ++ "/admin/login"`. -/
theorem login_redirect_via_gateway_prefix_witness :
    ∃ resp, enrich_route s5Store "gw" s5AppRoute = some resp
      ∧ resp.authConfig = some { requireAuth := true, authServiceId := some "aegis", loginRedirect := some ("/aegis" ++ "/admin/login") }
      ∧ resp.authService = some { id := "aegis", name := "Aegis", baseUrl := "http" ++ "://" ++ "h2" ++ ":" ++ "81", authEndpoint := none } := by
  have h := login_redirect_via_gateway_prefix.1 s5Store "gw" s5AppRoute
    { requireAuth := true, authServiceId := some "aegis" } "aegis" s5Aegis
    "/admin/login" s5AegisRoute s5App rfl rfl rfl (by decide) (by decide) rfl
    (by decide) (by decide) (by decide) rfl
  obtain ⟨resp, h1, h2, h3⟩ := h
  refine ⟨resp, h1, ?_, ?_⟩
  · rw [h2]
    decide
  · rw [h3]
    decide

end ServiceAtlas
